import Mathlib

/-!
Shallow embedding of the buffer-latch and frame-synchronization engine of
`services/surfaceflinger/BufferLayer.cpp` (class `android::BufferLayer`).

Pure data is translated structure-for-structure; the virtual producer-side
queries that `BufferLayer` delegates to its subclasses (`hasFrameUpdate`,
`getFrameNumber`, `fenceHasSignaled`, `latchSidebandStream`,
`updateTexImage`, `updateActiveBuffer`, `updateFrameNumber`,
`framePresentTimeIsCurrent`, `getSidebandStreamChanged`, `getAutoRefresh`)
are not part of this translation unit; their observable answers for one
latch attempt are collected in an `Env` record, modelled from the spec
where noted.
-/

namespace BufferLayerModel

/-- A sync point (the `SyncPoint` records held in `mLocalSyncPoints`):
target frame number, the `frameAvailable` and `transactionApplied` flags,
and the requester-layer back-reference (`getRequestedSyncLayer`), modelled
as an id plus whether the weak promotion still resolves. -/
structure SyncPoint where
  frameNumber : Nat
  frameAvailable : Bool
  transactionApplied : Bool
  requesterId : Nat
  requesterResolves : Bool
deriving Repr, DecidableEq

/-- A graphic buffer, reduced to the dimensions `latchBuffer` compares
(`getWidth` / `getHeight`). -/
structure GraphicBuffer where
  width : Nat
  height : Nat
deriving Repr, DecidableEq

/-- `Rect`, with the `getWidth` / `getHeight` / `isValid` accessors used in
`BufferLayer.cpp`. -/
structure Rect where
  left : Int
  top : Int
  right : Int
  bottom : Int
deriving Repr, DecidableEq

def Rect.getWidth (r : Rect) : Int := r.right - r.left

def Rect.getHeight (r : Rect) : Int := r.bottom - r.top

def Rect.isValid (r : Rect) : Bool :=
  decide (0 ≤ r.getWidth) && decide (0 ≤ r.getHeight)

/-- `FloatRect` (the composition state's `sourceCrop`), with exact rational
coordinates standing in for the machine floats. -/
structure FloatRect where
  left : ℚ
  top : ℚ
  right : ℚ
  bottom : ℚ
deriving DecidableEq

def FloatRect.getWidth (r : FloatRect) : ℚ := r.right - r.left

def FloatRect.getHeight (r : FloatRect) : ℚ := r.bottom - r.top

/-- The fields of `BufferLayer::BufferInfo` that `latchBuffer` reads or
compares. -/
structure BufferInfo where
  mBuffer : Option GraphicBuffer
  mCrop : Rect
  mTransform : Nat
  mScaleMode : Nat
  mTransformToDisplayInverse : Bool
  mPixelFormat : Nat
  mFrameLatencyNeeded : Bool
deriving Repr, DecidableEq

/-- The per-layer state `latchBuffer` reads and writes: the latched buffer
info, `mCurrentFrameNumber`, `mRefreshPending`, the `mLocalSyncPoints`
ledger, whether `mSidebandStream` is non-null, and whether the drawing
state carries `layer_state_t::eLayerOpaque`. -/
structure LayerState where
  mBufferInfo : BufferInfo
  mCurrentFrameNumber : Nat
  mRefreshPending : Bool
  mLocalSyncPoints : List SyncPoint
  mSidebandStream : Bool
  drawingStateOpaqueFlag : Bool
deriving Repr, DecidableEq

/-- Modelled from the spec: the answers the producer-side collaborators give
during one latch attempt ("Consumed from producer/queue collaborator:
acquireNextBuffer() -> BufferFrame | error, hasPendingFrame() -> bool, fence
objects with isSignaled()"). The subclass implementations of these virtual
methods are not in this repository's files; each field records one call's
observable result. `queueFrameNumber` is the producer's next-available frame
number (`getFrameNumber(expectedPresentTime)`, also the number installed by
`updateFrameNumber` after a successful acquisition); the three `...Ok` flags
say whether `updateTexImage` / `updateActiveBuffer` / `updateFrameNumber`
return `NO_ERROR`; `newBufferInfo` is what `gatherBufferInfo` stores;
`texImageRecompute` is whether `updateTexImage` itself sets
`recomputeVisibleRegions`. -/
structure Env where
  latchSidebandRefresh : Bool
  sidebandRecompute : Bool
  hasFrameUpdate : Bool
  sidebandStreamChanged : Bool
  autoRefresh : Bool
  fenceSignaled : Bool
  latchUnsignaled : Bool
  queueFrameNumber : Nat
  presentTimeIsCurrent : Bool
  updateTexImageOk : Bool
  texImageRecompute : Bool
  updateActiveBufferOk : Bool
  updateFrameNumberOk : Bool
  newBufferInfo : BufferInfo
deriving Repr, DecidableEq

/-- Where `latchBuffer` returned: each early `return` of the C++ function,
plus `latched` for the successful fall-through. -/
inductive LatchExit where
  | sidebandRefresh
  | noReadyFrame
  | refreshPending
  | fenceNotSignaled
  | transactionsNotSignaled
  | texImageFailed
  | activeBufferFailed
  | frameNumberFailed
  | latched
deriving Repr, DecidableEq

/-- The outcome of one `latchBuffer` call: its return value, which exit was
taken, the layer state afterwards, the in/out `recomputeVisibleRegions`
argument on return, and whether `mFlinger->signalLayerUpdate()` resp.
`mFlinger->setTransactionFlags(eTraversalNeeded)` were invoked. -/
structure LatchResult where
  returned : Bool
  exitPoint : LatchExit
  state : LayerState
  recomputeVisibleRegions : Bool
  signalLayerUpdateCalled : Bool
  traversalNeededSet : Bool
deriving Repr, DecidableEq

/-- `HARDWARE_IS_DEVICE_FORMAT` and `BufferLayer::getOpacityForFormat`:
device-specific formats 0x100..0x1FF are opaque; RGBA_8888 (1),
BGRA_8888 (5), RGBA_FP16 (0x16) and RGBA_1010102 (0x2B) have alpha; all
other formats are treated as opaque. -/
def getOpacityForFormat (format : Nat) : Bool :=
  if 0x100 ≤ format ∧ format ≤ 0x1FF then true
  else if format = 1 ∨ format = 5 ∨ format = 0x16 ∨ format = 0x2B then false
  else true

/-- `BufferLayer::isOpaque`: translucent while neither a sideband stream nor
a buffer is present; otherwise opaque iff the layer state's opaque flag is
set or the pixel format has no alpha. -/
def isOpaque (st : LayerState) : Bool :=
  if st.mSidebandStream = false ∧ st.mBufferInfo.mBuffer = none then false
  else st.drawingStateOpaqueFlag || getOpacityForFormat st.mBufferInfo.mPixelFormat

/-- `BufferLayer::hasReadyFrame`: a frame update is pending, or the sideband
stream changed, or auto-refresh is enabled. -/
def hasReadyFrame (e : Env) : Bool :=
  e.hasFrameUpdate || e.sidebandStreamChanged || e.autoRefresh

/-- `BufferLayer::latchUnsignaledBuffers`: the cached
`debug.sf.latch_unsignaled` property. -/
def latchUnsignaledBuffers (e : Env) : Bool := e.latchUnsignaled

/-- Modelled from the spec: `fenceHasSignaled` is a virtual method whose
implementations are not in this repository's files. Per the spec, the head
frame's acquire fence is polled non-blocking, and the explicit override
policy (`latchUnsignaledBuffers`) forces the poll to report signaled:
"A frame is never latched while its acquire fence is unsignaled, unless an
explicit override policy is active." -/
def fenceHasSignaled (e : Env) : Bool :=
  latchUnsignaledBuffers e || e.fenceSignaled

/-- `BufferLayer::getHeadFrameNumber`: the producer's pending frame number
when an update is pending, else the last latched frame number. -/
def getHeadFrameNumber (st : LayerState) (e : Env) : Nat :=
  if e.hasFrameUpdate then e.queueFrameNumber else st.mCurrentFrameNumber

/-- The scan loop of `BufferLayer::allTransactionsSignaled`: walk the ledger
in order, stopping at the first entry past the head frame number; at the
first matching entry whose frame is not yet available, set its
`frameAvailable` flag and stop with `allTransactionsApplied = false`;
otherwise accumulate the conjunction of `transactionIsApplied`. Returns
(`matchingFramesFound`, `allTransactionsApplied`, the ledger afterwards). -/
def scanSyncPoints (head : Nat) : List SyncPoint → Bool × Bool × List SyncPoint
  | [] => (false, true, [])
  | p :: rest =>
    if head < p.frameNumber then
      (false, true, p :: rest)
    else if p.frameAvailable = false then
      (true, false, { p with frameAvailable := true } :: rest)
    else
      let r := scanSyncPoints head rest
      (true, p.transactionApplied && r.2.1, p :: r.2.2)

/-- `BufferLayer::allTransactionsSignaled`: the boolean result
`!matchingFramesFound || allTransactionsApplied` together with the ledger as
left by the scan. -/
def allTransactionsSignaled (st : LayerState) (e : Env) : Bool × List SyncPoint :=
  let r := scanSyncPoints (getHeadFrameNumber st e) st.mLocalSyncPoints
  (!r.1 || r.2.1, r.2.2)

/-- The pruning predicate of `latchBuffer`'s final loop: an entry is erased
iff its frame is available, its transaction is applied, and its frame number
is at most the newly latched `mCurrentFrameNumber`; `keepSyncPoint` is the
negation (the entry survives). -/
def keepSyncPoint (currentFrameNumber : Nat) (p : SyncPoint) : Bool :=
  !(p.frameAvailable && p.transactionApplied && decide (p.frameNumber ≤ currentFrameNumber))

/-- Whether the old and new buffers exist and differ in width or height
(the dimension comparison at lines 418-425, performed only when the
previously latched buffer was non-null). -/
def bufferDimensionsChanged (oldBuffer newBuffer : Option GraphicBuffer) : Bool :=
  match oldBuffer, newBuffer with
  | some ob, some nb => decide (nb.width ≠ ob.width) || decide (nb.height ≠ ob.height)
  | _, _ => false

/-- The layer state after the successful latch path has run
`updateTexImage` / `updateActiveBuffer` / `updateFrameNumber` /
`gatherBufferInfo` and set `mRefreshPending` and `mFrameLatencyNeeded`
(sync-point pruning not yet applied). -/
def postAcquireState (st : LayerState) (e : Env) : LayerState :=
  { st with
    mBufferInfo := { e.newBufferInfo with mFrameLatencyNeeded := true },
    mCurrentFrameNumber := e.queueFrameNumber,
    mRefreshPending := true }

/-- `BufferLayer::latchBuffer`. The C++ takes `recomputeVisibleRegions` by
reference; here the incoming value is an argument and the outgoing value a
field of the result. Each `if` mirrors one early return of the source. -/
def latchBuffer (st : LayerState) (recomputeVisibleRegions : Bool) (e : Env) : LatchResult :=
  if e.latchSidebandRefresh then
    { returned := true, exitPoint := .sidebandRefresh, state := st,
      recomputeVisibleRegions := recomputeVisibleRegions || e.sidebandRecompute,
      signalLayerUpdateCalled := false, traversalNeededSet := false }
  else if !hasReadyFrame e then
    { returned := false, exitPoint := .noReadyFrame, state := st,
      recomputeVisibleRegions := recomputeVisibleRegions,
      signalLayerUpdateCalled := false, traversalNeededSet := false }
  else if st.mRefreshPending then
    { returned := false, exitPoint := .refreshPending, state := st,
      recomputeVisibleRegions := recomputeVisibleRegions,
      signalLayerUpdateCalled := false, traversalNeededSet := false }
  else if !fenceHasSignaled e then
    { returned := false, exitPoint := .fenceNotSignaled, state := st,
      recomputeVisibleRegions := recomputeVisibleRegions,
      signalLayerUpdateCalled := true, traversalNeededSet := false }
  else
    let oldOpacity := isOpaque st
    let oldBufferInfo := st.mBufferInfo
    let ats := allTransactionsSignaled st e
    if !ats.1 then
      { returned := false, exitPoint := .transactionsNotSignaled,
        state := { st with mLocalSyncPoints := ats.2 },
        recomputeVisibleRegions := recomputeVisibleRegions,
        signalLayerUpdateCalled := false, traversalNeededSet := true }
    else if !e.updateTexImageOk then
      { returned := false, exitPoint := .texImageFailed,
        state := { st with mLocalSyncPoints := ats.2 },
        recomputeVisibleRegions := recomputeVisibleRegions,
        signalLayerUpdateCalled := false, traversalNeededSet := false }
    else if !e.updateActiveBufferOk then
      { returned := false, exitPoint := .activeBufferFailed,
        state := { st with mLocalSyncPoints := ats.2 },
        recomputeVisibleRegions := recomputeVisibleRegions,
        signalLayerUpdateCalled := false, traversalNeededSet := false }
    else if !e.updateFrameNumberOk then
      { returned := false, exitPoint := .frameNumberFailed,
        state := { st with mLocalSyncPoints := ats.2 },
        recomputeVisibleRegions := recomputeVisibleRegions,
        signalLayerUpdateCalled := false, traversalNeededSet := false }
    else
      let st1 := postAcquireState st e
      let geometryChanged :=
        recomputeVisibleRegions || e.texImageRecompute ||
        oldBufferInfo.mBuffer.isNone ||
        decide (st1.mBufferInfo.mCrop ≠ oldBufferInfo.mCrop) ||
        decide (st1.mBufferInfo.mTransform ≠ oldBufferInfo.mTransform) ||
        decide (st1.mBufferInfo.mScaleMode ≠ oldBufferInfo.mScaleMode) ||
        decide (st1.mBufferInfo.mTransformToDisplayInverse ≠
          oldBufferInfo.mTransformToDisplayInverse) ||
        bufferDimensionsChanged oldBufferInfo.mBuffer st1.mBufferInfo.mBuffer ||
        decide (oldOpacity ≠ isOpaque st1)
      { returned := true, exitPoint := .latched,
        state := { st1 with
          mLocalSyncPoints := ats.2.filter (keepSyncPoint st1.mCurrentFrameNumber) },
        recomputeVisibleRegions := geometryChanged,
        signalLayerUpdateCalled := false, traversalNeededSet := false }

/-- The result of `BufferLayer::notifyAvailableFrames`: the ledger after the
loop, and the ids of the requester layers on which
`setTransactionFlags(eTransactionNeeded)` was called. -/
structure NotifyResult where
  points : List SyncPoint
  flaggedRequesters : List Nat
deriving Repr, DecidableEq

/-- `BufferLayer::notifyAvailableFrames`: for every ledger entry whose
target frame number is at most the head frame number, when the head fence
has signaled and the expected present time is current, mark the frame
available and, when the requester back-reference promotes, flag that
requester for a transaction re-evaluation. -/
def notifyAvailableFrames (st : LayerState) (e : Env) : NotifyResult :=
  let headFrameNumber := getHeadFrameNumber st e
  let headFenceSignaled := fenceHasSignaled e
  let presentTimeIsCurrent := e.presentTimeIsCurrent
  { points := st.mLocalSyncPoints.map (fun p =>
      if decide (p.frameNumber ≤ headFrameNumber) && headFenceSignaled &&
          presentTimeIsCurrent then
        { p with frameAvailable := true }
      else p),
    flaggedRequesters := (st.mLocalSyncPoints.filter (fun p =>
      decide (p.frameNumber ≤ headFrameNumber) && headFenceSignaled &&
        presentTimeIsCurrent && p.requesterResolves)).map (·.requesterId) }

/-- The composition state of the output layer resolved for a display
(`outputLayer->getState()`), reduced to the two rectangles `needsFiltering`
compares. -/
structure OutputLayerState where
  displayFrame : Rect
  sourceCrop : FloatRect
deriving DecidableEq

/-- `BufferLayer::needsFiltering`: false without a known display device or
a resolvable output layer; otherwise true iff the source crop's height or
width differs from the display frame's. -/
def needsFiltering (hasDisplayDevice : Bool) (outputLayer : Option OutputLayerState) : Bool :=
  if hasDisplayDevice = false then false
  else
    match outputLayer with
    | none => false
    | some c =>
      decide (c.sourceCrop.getHeight ≠ (c.displayFrame.getHeight : ℚ)) ||
      decide (c.sourceCrop.getWidth ≠ (c.displayFrame.getWidth : ℚ))

/-- The scale/translate part of the texture transform that
`prepareClientComposition` builds (lines 225-246): the buffer dimensions,
replaced by the window's own dimensions when `getBufferSize` is invalid, and
the resulting scale factors and translations mapping the window onto the
buffer. Rationals stand in for the machine floats. -/
structure Projection where
  scaleWidth : ℚ
  scaleHeight : ℚ
  translateX : ℚ
  translateY : ℚ
deriving Repr, DecidableEq

/-- The projection computation of `prepareClientComposition`: `win` is
`getBounds()`, `bufferSize` is `getBufferSize(s)`; when the latter is not
valid the window's width and height are used in its place, and the scale
and translate factors are formed by division. -/
def computeProjection (win : Rect) (bufferSize : Rect) : Projection :=
  let bufferWidth : ℚ :=
    if bufferSize.isValid then (bufferSize.getWidth : ℚ)
    else (win.right : ℚ) - (win.left : ℚ)
  let bufferHeight : ℚ :=
    if bufferSize.isValid then (bufferSize.getHeight : ℚ)
    else (win.bottom : ℚ) - (win.top : ℚ)
  { scaleHeight := ((win.bottom : ℚ) - (win.top : ℚ)) / bufferHeight,
    scaleWidth := ((win.right : ℚ) - (win.left : ℚ)) / bufferWidth,
    translateY := (win.top : ℚ) / bufferHeight,
    translateX := (win.left : ℚ) / bufferWidth }

/-- The projector as the spec's words describe it: "Malformed geometry
(zero-area or inverted crop) must not propagate degenerate values; the
projector returns the previous valid projection unchanged in that case."
Stated for comparison with `computeProjection`, which is translated from the
source and takes no previous projection at all. -/
def specKeepPreviousProjection (win : Rect) (bufferSize : Rect)
    (previous : Projection) : Projection :=
  if bufferSize.isValid then computeProjection win bufferSize else previous

/-- An event visible to the latch state machine: `onPreComposition` (which
clears `mRefreshPending`, lines 283-290) or a `latchBuffer` call with the
producer-side answers `e`. -/
inductive LayerEvent where
  | preComposition
  | latch (e : Env)
deriving Repr

/-- One event's effect on the layer state. -/
def applyEvent (st : LayerState) : LayerEvent → LayerState
  | .preComposition => { st with mRefreshPending := false }
  | .latch e => (latchBuffer st false e).state

/-- The frame numbers observed at each successful latch (a `latchBuffer`
call that reaches the `latched` exit, i.e. returns true after acquiring a
buffer) along a sequence of events. -/
def observedFrameNumbers (st : LayerState) : List LayerEvent → List Nat
  | [] => []
  | .preComposition :: evs => observedFrameNumbers (applyEvent st .preComposition) evs
  | .latch e :: evs =>
    let r := latchBuffer st false e
    if r.exitPoint = LatchExit.latched then
      r.state.mCurrentFrameNumber :: observedFrameNumbers r.state evs
    else
      observedFrameNumbers r.state evs

/-- Modelled from the spec: the producer contract along a trace. The data
model states "frameNumber (monotonic, per-layer unique)", so the frame
number a latch attempt would install (`queueFrameNumber`, the producer's
next-available frame) is strictly beyond the layer's current frame number.
The queue-side code enforcing this is not in this repository's files. -/
def producerTrace (st : LayerState) : List LayerEvent → Bool
  | [] => true
  | .preComposition :: evs => producerTrace (applyEvent st .preComposition) evs
  | .latch e :: evs =>
    decide (st.mCurrentFrameNumber < e.queueFrameNumber) &&
      producerTrace (latchBuffer st false e).state evs

/-- The ledger ordering invariant the spec states for `SyncPointLedger`:
entries are kept in ascending order of target frame number. -/
def LedgerSorted (l : List SyncPoint) : Prop :=
  List.Pairwise (fun p q => p.frameNumber ≤ q.frameNumber) l

instance (l : List SyncPoint) : Decidable (LedgerSorted l) := by
  unfold LedgerSorted
  infer_instance

/-- A buffer info with no buffer latched yet (the state before the very
first latch). -/
def sampleBufferInfo : BufferInfo :=
  { mBuffer := none, mCrop := ⟨0, 0, 0, 0⟩, mTransform := 0, mScaleMode := 0,
    mTransformToDisplayInverse := false, mPixelFormat := 1,
    mFrameLatencyNeeded := false }

/-- The buffer info gathered for an acquired 4x4 frame. -/
def sampleNewBufferInfo : BufferInfo :=
  { mBuffer := some ⟨4, 4⟩, mCrop := ⟨0, 0, 4, 4⟩, mTransform := 0,
    mScaleMode := 0, mTransformToDisplayInverse := false, mPixelFormat := 1,
    mFrameLatencyNeeded := false }

/-- Producer-side answers for a latch attempt whose head frame is number 3,
with the acquire fence signaled, no override, and every acquisition step
succeeding. -/
def sampleEnv : Env :=
  { latchSidebandRefresh := false, sidebandRecompute := false,
    hasFrameUpdate := true, sidebandStreamChanged := false,
    autoRefresh := false, fenceSignaled := true, latchUnsignaled := false,
    queueFrameNumber := 3, presentTimeIsCurrent := true,
    updateTexImageOk := true, texImageRecompute := false,
    updateActiveBufferOk := true, updateFrameNumberOk := true,
    newBufferInfo := sampleNewBufferInfo }

/-- A sync point targeting frame 2 with neither flag set, requested by
layer 7. -/
def sampleSyncPoint : SyncPoint :=
  { frameNumber := 2, frameAvailable := false, transactionApplied := false,
    requesterId := 7, requesterResolves := true }

/-- A layer before its first latch whose ledger holds `sampleSyncPoint`. -/
def sampleState : LayerState :=
  { mBufferInfo := sampleBufferInfo, mCurrentFrameNumber := 0,
    mRefreshPending := false, mLocalSyncPoints := [sampleSyncPoint],
    mSidebandStream := false, drawingStateOpaqueFlag := false }

/-- A layer whose single ledger entry has its frame available but its
transaction not yet applied. -/
def sampleStateUnapplied : LayerState :=
  { sampleState with mLocalSyncPoints :=
      [{ sampleSyncPoint with frameAvailable := true }] }

/-- A layer whose ledger holds one fully satisfied entry at frame 1 and one
satisfied entry at frame 5, past the head. -/
def sampleStatePrunable : LayerState :=
  { sampleState with mLocalSyncPoints :=
      [⟨1, true, true, 5, true⟩, ⟨5, true, true, 6, true⟩] }

/-- A layer before its first latch with an empty ledger. -/
def sampleStateEmptyLedger : LayerState :=
  { sampleState with mLocalSyncPoints := [] }

/-- Two latch attempts with an intervening composition step: frames 1 and 2
are offered in order. -/
def sampleTrace : List LayerEvent :=
  [.latch { sampleEnv with queueFrameNumber := 1 }, .preComposition,
   .latch { sampleEnv with queueFrameNumber := 2 }]

/-- When the scan reports `!matchingFramesFound || allTransactionsApplied`,
it never took the branch that marks a frame available, so the ledger is
returned unchanged. -/
theorem scanSyncPoints_true_unchanged (head : Nat) (l : List SyncPoint)
    (h : (!(scanSyncPoints head l).1 || (scanSyncPoints head l).2.1) = true) :
    (scanSyncPoints head l).2.2 = l := by
  induction l with
  | nil => rfl
  | cons p rest ih =>
    by_cases h1 : head < p.frameNumber
    · simp [scanSyncPoints, h1]
    · by_cases h2 : p.frameAvailable = false
      · simp [scanSyncPoints, h1, h2] at h
      · simp only [scanSyncPoints, if_neg h1, if_neg h2, Bool.not_true,
          Bool.false_or] at h ⊢
        have h3 : (scanSyncPoints head rest).2.1 = true := by
          simp only [Bool.and_eq_true] at h
          exact h.2
        rw [ih (by simp [h3])]

/-- When the ledger is sorted and holds an entry at or below the head frame
number whose frame is not yet available, the scan stops at the first such
entry, marks exactly it available, and reports
`(matchingFramesFound, allTransactionsApplied) = (true, false)`. -/
theorem scanSyncPoints_unavailable (head : Nat) (l : List SyncPoint)
    (hsort : LedgerSorted l) (p : SyncPoint) (hmem : p ∈ l)
    (hle : p.frameNumber ≤ head) (hav : p.frameAvailable = false) :
    ∃ j q, l[j]? = some q ∧ q.frameNumber ≤ head ∧ q.frameAvailable = false ∧
      scanSyncPoints head l =
        (true, false, l.set j { q with frameAvailable := true }) := by
  induction l with
  | nil => cases hmem
  | cons p0 rest ih =>
    rw [LedgerSorted, List.pairwise_cons] at hsort
    obtain ⟨hall, hrest⟩ := hsort
    by_cases h1 : head < p0.frameNumber
    · exfalso
      rcases List.mem_cons.mp hmem with rfl | hm2
      · exact absurd hle (not_le.mpr h1)
      · exact absurd (le_trans (hall p hm2) hle) (not_le.mpr h1)
    · by_cases h2 : p0.frameAvailable = false
      · refine ⟨0, p0, by simp, not_lt.mp h1, h2, ?_⟩
        simp [scanSyncPoints, h1, h2]
      · have hpm : p ∈ rest := by
          rcases List.mem_cons.mp hmem with rfl | hm
          · exact absurd hav h2
          · exact hm
        obtain ⟨j, q, hq, hqle, hqav, hscan⟩ := ih hrest hpm
        refine ⟨j + 1, q, by simpa using hq, hqle, hqav, ?_⟩
        simp only [scanSyncPoints, if_neg h1, if_neg h2, hscan]
        simp

/-- When every ledger entry at or below the head frame number already has
its frame available, the scan leaves the ledger unchanged and reports
whether any entry matched and whether all matching entries have their
transactions applied. -/
theorem scanSyncPoints_all_available (head : Nat) (l : List SyncPoint)
    (hsort : LedgerSorted l)
    (hav : ∀ p ∈ l, p.frameNumber ≤ head → p.frameAvailable = true) :
    scanSyncPoints head l =
      (l.any (fun p => decide (p.frameNumber ≤ head)),
       l.all (fun p => !decide (p.frameNumber ≤ head) || p.transactionApplied),
       l) := by
  induction l with
  | nil => rfl
  | cons p0 rest ih =>
    rw [LedgerSorted, List.pairwise_cons] at hsort
    obtain ⟨hall, hrest⟩ := hsort
    by_cases h1 : head < p0.frameNumber
    · have hany : rest.any (fun p => decide (p.frameNumber ≤ head)) = false := by
        rw [List.any_eq_false]
        intro q hq
        simp only [decide_eq_true_eq]
        exact fun hc => absurd (le_trans (hall q hq) hc) (not_le.mpr h1)
      have hall2 : rest.all
          (fun p => !decide (p.frameNumber ≤ head) || p.transactionApplied) = true := by
        rw [List.all_eq_true]
        intro q hq
        have : decide (q.frameNumber ≤ head) = false := by
          simp only [decide_eq_false_iff_not]
          exact fun hc => absurd (le_trans (hall q hq) hc) (not_le.mpr h1)
        simp [this]
      simp [scanSyncPoints, h1, not_le.mpr h1, hany, hall2]
    · have hle0 : p0.frameNumber ≤ head := not_lt.mp h1
      have h2 : p0.frameAvailable = true := hav p0 (List.mem_cons_self p0 rest) hle0
      have h2' : ¬ p0.frameAvailable = false := by simp [h2]
      have ihr := ih hrest (fun q hq hq2 => hav q (List.mem_cons_of_mem p0 hq) hq2)
      simp only [scanSyncPoints, if_neg h1, if_neg h2', ihr]
      simp [hle0]

/-- C1: during a latch attempt that reaches the ledger consultation, a
ledger entry at or below the head frame number whose `frameAvailable` flag
is false makes `latchBuffer` set exactly that entry's flag to true and
return false with the `transactionsNotSignaled` exit: no buffer is latched
(the state changes only in `mLocalSyncPoints`, by `List.set` at the entry,
so the entry itself remains in the ledger un-pruned). -/
theorem C1_unavailable_syncpoint_aborts_latch
    (st : LayerState) (rc : Bool) (e : Env)
    (hsort : LedgerSorted st.mLocalSyncPoints)
    (hsb : e.latchSidebandRefresh = false)
    (hready : hasReadyFrame e = true)
    (hrp : st.mRefreshPending = false)
    (hfence : fenceHasSignaled e = true)
    (p : SyncPoint) (hmem : p ∈ st.mLocalSyncPoints)
    (hle : p.frameNumber ≤ getHeadFrameNumber st e)
    (hav : p.frameAvailable = false) :
    ∃ j q, st.mLocalSyncPoints[j]? = some q ∧
      q.frameNumber ≤ getHeadFrameNumber st e ∧ q.frameAvailable = false ∧
      latchBuffer st rc e =
        { returned := false, exitPoint := .transactionsNotSignaled,
          state := { st with mLocalSyncPoints :=
            st.mLocalSyncPoints.set j { q with frameAvailable := true } },
          recomputeVisibleRegions := rc,
          signalLayerUpdateCalled := false, traversalNeededSet := true } := by
  obtain ⟨j, q, hq, hqle, hqav, hscan⟩ :=
    scanSyncPoints_unavailable (getHeadFrameNumber st e) st.mLocalSyncPoints hsort
      p hmem hle hav
  refine ⟨j, q, hq, hqle, hqav, ?_⟩
  simp [latchBuffer, hsb, hready, hrp, hfence, allTransactionsSignaled, hscan]

/-- C4: with a frame pending, no refresh pending, the acquire fence
unsignaled and the unsignaled-latch override inactive, `latchBuffer`
returns false at the fence check, calls `signalLayerUpdate` to request a
wake on the next refresh, and leaves the layer state (in particular
`mBufferInfo`) completely unchanged. -/
theorem C4_unsignaled_fence_defers_latch
    (st : LayerState) (rc : Bool) (e : Env)
    (hsb : e.latchSidebandRefresh = false)
    (hupd : e.hasFrameUpdate = true)
    (hrp : st.mRefreshPending = false)
    (hfs : e.fenceSignaled = false)
    (hlu : e.latchUnsignaled = false) :
    latchBuffer st rc e =
      { returned := false, exitPoint := .fenceNotSignaled, state := st,
        recomputeVisibleRegions := rc,
        signalLayerUpdateCalled := true, traversalNeededSet := false } := by
  simp [latchBuffer, hasReadyFrame, fenceHasSignaled, latchUnsignaledBuffers,
    hsb, hupd, hrp, hfs, hlu]

/-- C5: when every ledger entry at or below the head frame number already
has its frame available but some such entry's transaction is not applied,
`latchBuffer` defers: it returns false with the `transactionsNotSignaled`
exit and the layer state — the ledger included — is unchanged. -/
theorem C5_unapplied_transaction_defers_latch
    (st : LayerState) (rc : Bool) (e : Env)
    (hsort : LedgerSorted st.mLocalSyncPoints)
    (hsb : e.latchSidebandRefresh = false)
    (hready : hasReadyFrame e = true)
    (hrp : st.mRefreshPending = false)
    (hfence : fenceHasSignaled e = true)
    (hallav : ∀ p ∈ st.mLocalSyncPoints,
      p.frameNumber ≤ getHeadFrameNumber st e → p.frameAvailable = true)
    (p : SyncPoint) (hmem : p ∈ st.mLocalSyncPoints)
    (hle : p.frameNumber ≤ getHeadFrameNumber st e)
    (hna : p.transactionApplied = false) :
    latchBuffer st rc e =
      { returned := false, exitPoint := .transactionsNotSignaled, state := st,
        recomputeVisibleRegions := rc,
        signalLayerUpdateCalled := false, traversalNeededSet := true } := by
  have hscan := scanSyncPoints_all_available (getHeadFrameNumber st e)
    st.mLocalSyncPoints hsort hallav
  have hany : st.mLocalSyncPoints.any
      (fun q => decide (q.frameNumber ≤ getHeadFrameNumber st e)) = true :=
    List.any_eq_true.mpr ⟨p, hmem, by simp [hle]⟩
  have hall : st.mLocalSyncPoints.all
      (fun q => !decide (q.frameNumber ≤ getHeadFrameNumber st e) ||
        q.transactionApplied) = false := by
    rw [← Bool.not_eq_true, List.all_eq_true]
    intro hc
    have := hc p hmem
    simp [hle, hna] at this
  simp only [latchBuffer, hsb, hready, hrp, hfence, allTransactionsSignaled,
    hscan, hany, hall, Bool.not_true, Bool.not_false, Bool.true_or,
    Bool.false_or, Bool.or_false, Bool.true_and, if_false, if_true,
    Bool.false_eq_true, ite_false, ite_true]
  simp [hscan, hall]
  rw [← hrp]

/-- Inversion of the `latchBuffer` control flow: reaching the `latched`
exit means every early return was passed. -/
theorem latchBuffer_latched_inv (st : LayerState) (rc : Bool) (e : Env)
    (h : (latchBuffer st rc e).exitPoint = LatchExit.latched) :
    e.latchSidebandRefresh = false ∧ hasReadyFrame e = true ∧
    st.mRefreshPending = false ∧ fenceHasSignaled e = true ∧
    (allTransactionsSignaled st e).1 = true ∧
    e.updateTexImageOk = true ∧ e.updateActiveBufferOk = true ∧
    e.updateFrameNumberOk = true := by
  simp only [latchBuffer] at h
  split_ifs at h with h1 h2 h3 h4 h5 h6 h7 h8
  all_goals simp_all

/-- C3: a successful latch installs the acquired frame number as
`mCurrentFrameNumber` and leaves the ledger equal to its previous value
filtered by the pruning predicate: an entry is removed exactly when its
frame is available, its transaction is applied, and its target frame number
is at most the newly latched frame number; every other entry remains. -/
theorem C3_successful_latch_prunes_exactly_satisfied
    (st : LayerState) (rc : Bool) (e : Env)
    (hlat : (latchBuffer st rc e).exitPoint = LatchExit.latched) :
    (latchBuffer st rc e).state.mCurrentFrameNumber = e.queueFrameNumber ∧
    (latchBuffer st rc e).state.mLocalSyncPoints =
      st.mLocalSyncPoints.filter (fun p =>
        !(p.frameAvailable && p.transactionApplied &&
          decide (p.frameNumber ≤ e.queueFrameNumber))) := by
  obtain ⟨hsb, hready, hrp, hfence, hats, ho1, ho2, ho3⟩ :=
    latchBuffer_latched_inv st rc e hlat
  have hunch : (allTransactionsSignaled st e).2 = st.mLocalSyncPoints := by
    simpa [allTransactionsSignaled] using
      scanSyncPoints_true_unchanged (getHeadFrameNumber st e) st.mLocalSyncPoints
        (by simpa [allTransactionsSignaled] using hats)
  simp [latchBuffer, hsb, hready, hrp, hfence, hats, ho1, ho2, ho3,
    hunch, postAcquireState, keepSyncPoint]
  exact List.filter_congr (fun p _ => by simp [keepSyncPoint])

/-- C7: on a successful latch, `recomputeVisibleRegions` comes back true
whenever this is the first frame ever latched (the previous buffer was
null) or the crop, transform, scaling mode, display-inverse flag, buffer
dimensions or opacity differ from the previous latched snapshot. -/
theorem C7_geometry_change_reported
    (st : LayerState) (rc : Bool) (e : Env)
    (hlat : (latchBuffer st rc e).exitPoint = LatchExit.latched)
    (hdiff : st.mBufferInfo.mBuffer = none ∨
      e.newBufferInfo.mCrop ≠ st.mBufferInfo.mCrop ∨
      e.newBufferInfo.mTransform ≠ st.mBufferInfo.mTransform ∨
      e.newBufferInfo.mScaleMode ≠ st.mBufferInfo.mScaleMode ∨
      e.newBufferInfo.mTransformToDisplayInverse ≠
        st.mBufferInfo.mTransformToDisplayInverse ∨
      bufferDimensionsChanged st.mBufferInfo.mBuffer e.newBufferInfo.mBuffer = true ∨
      isOpaque st ≠ isOpaque (postAcquireState st e)) :
    (latchBuffer st rc e).recomputeVisibleRegions = true := by
  obtain ⟨hsb, hready, hrp, hfence, hats, ho1, ho2, ho3⟩ :=
    latchBuffer_latched_inv st rc e hlat
  simp only [latchBuffer, hsb, hready, hrp, hfence, hats, ho1, ho2, ho3,
    Bool.not_true, Bool.not_false, Bool.false_eq_true, if_false, if_true,
    ite_false, ite_true]
  simp only [postAcquireState] at hdiff ⊢
  rcases hdiff with h | h | h | h | h | h | h <;> simp [h]

/-- A successful latch installs the acquired frame number. -/
theorem latchBuffer_latched_frameNumber (st : LayerState) (rc : Bool) (e : Env)
    (h : (latchBuffer st rc e).exitPoint = LatchExit.latched) :
    (latchBuffer st rc e).state.mCurrentFrameNumber = e.queueFrameNumber := by
  obtain ⟨hsb, hready, hrp, hfence, hats, ho1, ho2, ho3⟩ :=
    latchBuffer_latched_inv st rc e h
  simp [latchBuffer, hsb, hready, hrp, hfence, hats, ho1, ho2, ho3,
    postAcquireState]

/-- A latch attempt that does not reach the `latched` exit leaves
`mCurrentFrameNumber` untouched. -/
theorem latchBuffer_failed_frameNumber (st : LayerState) (rc : Bool) (e : Env)
    (h : (latchBuffer st rc e).exitPoint ≠ LatchExit.latched) :
    (latchBuffer st rc e).state.mCurrentFrameNumber = st.mCurrentFrameNumber := by
  simp only [latchBuffer] at h ⊢
  split_ifs at h ⊢
  all_goals simp_all

/-- The invariant behind C2: along an event trace satisfying the producer
contract, the observed frame numbers form a strictly increasing chain and
all of them lie strictly above the starting state's current frame number. -/
theorem observedFrameNumbers_chain (evs : List LayerEvent) :
    ∀ st : LayerState, producerTrace st evs = true →
      List.Chain' (· < ·) (observedFrameNumbers st evs) ∧
      ∀ n ∈ observedFrameNumbers st evs, st.mCurrentFrameNumber < n := by
  induction evs with
  | nil => intro st _; exact ⟨List.chain'_nil, by simp [observedFrameNumbers]⟩
  | cons ev evs ih =>
    intro st h
    cases ev with
    | preComposition =>
      have := ih { st with mRefreshPending := false } (by simpa [producerTrace, applyEvent] using h)
      simpa [observedFrameNumbers, applyEvent] using this
    | latch e =>
      simp only [producerTrace, Bool.and_eq_true, decide_eq_true_eq] at h
      obtain ⟨hlt, hrest⟩ := h
      by_cases hexit : (latchBuffer st false e).exitPoint = LatchExit.latched
      · have hcur := latchBuffer_latched_frameNumber st false e hexit
        obtain ⟨hchain, hlb⟩ := ih (latchBuffer st false e).state hrest
        have hobs : observedFrameNumbers st (.latch e :: evs) =
            (latchBuffer st false e).state.mCurrentFrameNumber ::
              observedFrameNumbers (latchBuffer st false e).state evs := by
          simp [observedFrameNumbers, hexit]
        rw [hobs]
        constructor
        · exact List.chain'_cons'.mpr
            ⟨fun y hy => hlb y (List.mem_of_mem_head? hy), hchain⟩
        · intro n hn
          rcases List.mem_cons.mp hn with rfl | hn2
          · rw [hcur]; exact hlt
          · exact lt_trans (hcur ▸ hlt) (hlb n hn2)
      · have hcur := latchBuffer_failed_frameNumber st false e hexit
        obtain ⟨hchain, hlb⟩ := ih (latchBuffer st false e).state hrest
        have hobs : observedFrameNumbers st (.latch e :: evs) =
            observedFrameNumbers (latchBuffer st false e).state evs := by
          simp [observedFrameNumbers, hexit]
        rw [hobs]
        exact ⟨hchain, fun n hn => hcur ▸ hlb n hn⟩

/-- C2: across any event trace satisfying the producer contract, the frame
numbers observed at successful latches (calls of `latchBuffer` that reach
the `latched` exit) are strictly increasing. -/
theorem C2_frame_numbers_strictly_increase
    (st : LayerState) (evs : List LayerEvent)
    (h : producerTrace st evs = true) :
    List.Chain' (· < ·) (observedFrameNumbers st evs) :=
  (observedFrameNumbers_chain evs st h).1

/-- C6: `notifyAvailableFrames` marks a ledger entry's frame available
exactly when its target frame number is at most the head frame number, the
head fence has signaled, and the expected present time is current — the
entry is returned unchanged otherwise — and a requester id is flagged for a
transaction re-evaluation precisely when some entry meeting those three
conditions carries a resolvable back-reference to it. -/
theorem C6_notifyAvailableFrames_marks_and_flags
    (st : LayerState) (e : Env) (i : Nat) (p : SyncPoint)
    (hp : st.mLocalSyncPoints[i]? = some p) :
    (notifyAvailableFrames st e).points[i]? =
      some (if p.frameNumber ≤ getHeadFrameNumber st e ∧ fenceHasSignaled e = true ∧
          e.presentTimeIsCurrent = true
        then { p with frameAvailable := true } else p) ∧
    (p.requesterId ∈ (notifyAvailableFrames st e).flaggedRequesters ↔
      ∃ q ∈ st.mLocalSyncPoints, q.frameNumber ≤ getHeadFrameNumber st e ∧
        fenceHasSignaled e = true ∧ e.presentTimeIsCurrent = true ∧
        q.requesterResolves = true ∧ q.requesterId = p.requesterId) := by
  constructor
  · simp only [notifyAvailableFrames, List.getElem?_map, hp]
    have hiff : ((decide (p.frameNumber ≤ getHeadFrameNumber st e) &&
        fenceHasSignaled e && e.presentTimeIsCurrent) = true) ↔
        (p.frameNumber ≤ getHeadFrameNumber st e ∧ fenceHasSignaled e = true ∧
          e.presentTimeIsCurrent = true) := by
      simp [and_assoc]
    exact congrArg some (if_congr hiff rfl rfl)
  · simp only [notifyAvailableFrames, List.mem_map, List.mem_filter,
      Bool.and_eq_true, decide_eq_true_eq]
    constructor
    · rintro ⟨q, ⟨hqmem, ⟨⟨⟨hq1, hq2⟩, hq3⟩, hq4⟩⟩, hq5⟩
      exact ⟨q, hqmem, hq1, hq2, hq3, hq4, hq5⟩
    · rintro ⟨q, hqmem, hq1, hq2, hq3, hq4, hq5⟩
      exact ⟨q, ⟨hqmem, ⟨⟨⟨hq1, hq2⟩, hq3⟩, hq4⟩⟩, hq5⟩

/-- C9: for a known display device with a resolvable output layer,
`needsFiltering` answers true exactly when the source crop's width or
height differs from the display frame's (a non-1:1 render). -/
theorem C9_needsFiltering_iff_dimension_mismatch (c : OutputLayerState) :
    needsFiltering true (some c) = true ↔
      (c.sourceCrop.getWidth ≠ (c.displayFrame.getWidth : ℚ) ∨
       c.sourceCrop.getHeight ≠ (c.displayFrame.getHeight : ℚ)) := by
  simp [needsFiltering, or_comm]

/-- C10: `hasReadyFrame` holds exactly when a frame update is pending, the
sideband stream changed, or auto-refresh is enabled; and when the sideband
path did not already force a refresh, `latchBuffer` stops at its no-op
check precisely when `hasReadyFrame` is false, so it proceeds past that
check in all three cases. -/
theorem C10_hasReadyFrame_gates_latch
    (st : LayerState) (rc : Bool) (e : Env)
    (hsb : e.latchSidebandRefresh = false) :
    (hasReadyFrame e = true ↔
      (e.hasFrameUpdate = true ∨ e.sidebandStreamChanged = true ∨
        e.autoRefresh = true)) ∧
    ((latchBuffer st rc e).exitPoint = LatchExit.noReadyFrame ↔
      hasReadyFrame e = false) := by
  refine ⟨by simp [hasReadyFrame, or_assoc], ?_⟩
  by_cases h : hasReadyFrame e = true
  · simp only [latchBuffer, hsb, h, Bool.not_true, Bool.false_eq_true,
      if_false, ite_false]
    constructor
    · intro hc
      exfalso
      revert hc
      split_ifs
      all_goals simp
    · intro hc
      simp at hc
  · have h' : hasReadyFrame e = false := by
      cases hr : hasReadyFrame e
      · rfl
      · exact absurd hr h
    simp [latchBuffer, hsb, h']

/-- C8 counterexample: for an invalid (inverted, negative-dimension) buffer
size the projection computation of `prepareClientComposition` does not
return a previous projection: at window [0,0,2,2] with buffer size
[0,0,-1,-1] and previous projection of scale 5, the spec-worded projector
keeps the previous projection while the code computes a fresh one of
scale 1. -/
theorem C8_counterexample_previous_not_kept :
    Rect.isValid ⟨0, 0, -1, -1⟩ = false ∧
    specKeepPreviousProjection ⟨0, 0, 2, 2⟩ ⟨0, 0, -1, -1⟩ ⟨5, 5, 0, 0⟩ =
      ⟨5, 5, 0, 0⟩ ∧
    computeProjection ⟨0, 0, 2, 2⟩ ⟨0, 0, -1, -1⟩ ≠ ⟨5, 5, 0, 0⟩ := by
  refine ⟨by decide, ?_, ?_⟩
  · simp [specKeepPreviousProjection, Rect.isValid, Rect.getWidth, Rect.getHeight]
  · intro hc
    have h1 : (computeProjection ⟨0, 0, 2, 2⟩ ⟨0, 0, -1, -1⟩).scaleWidth = 1 := by
      norm_num [computeProjection, Rect.isValid, Rect.getWidth, Rect.getHeight]
    rw [hc] at h1
    norm_num at h1

/-- C8 amended: when the buffer size rect is invalid (negative width or
height), the projection computation substitutes the window's own width and
height for the buffer dimensions — for a window of nonzero dimensions the
scale factors are exactly 1 and the translations are the window origin
divided by its dimensions; no previous projection is consulted. -/
theorem C8_amended_invalid_size_uses_window_dimensions
    (win bufferSize : Rect)
    (hinv : bufferSize.isValid = false)
    (hw : win.getWidth ≠ 0) (hh : win.getHeight ≠ 0) :
    computeProjection win bufferSize =
      { scaleWidth := 1, scaleHeight := 1,
        translateX := (win.left : ℚ) / ((win.right : ℚ) - (win.left : ℚ)),
        translateY := (win.top : ℚ) / ((win.bottom : ℚ) - (win.top : ℚ)) } := by
  have hw' : (win.right : ℚ) - (win.left : ℚ) ≠ 0 := by
    rw [sub_ne_zero]
    intro hc
    apply hw
    simp only [Rect.getWidth, sub_eq_zero]
    exact_mod_cast hc
  have hh' : (win.bottom : ℚ) - (win.top : ℚ) ≠ 0 := by
    rw [sub_ne_zero]
    intro hc
    apply hh
    simp only [Rect.getHeight, sub_eq_zero]
    exact_mod_cast hc
  simp [computeProjection, hinv, div_self hw', div_self hh']

/-- Witness for C1 (the spec's Scenario C): ledger holds target 2 with
`frameAvailable = false`, head frame is 3, fence signaled — the latch
aborts, the entry is marked available and stays in the ledger. -/
theorem C1_witness_scenario_c :
    ∃ j q, sampleState.mLocalSyncPoints[j]? = some q ∧
      q.frameNumber ≤ getHeadFrameNumber sampleState sampleEnv ∧
      q.frameAvailable = false ∧
      latchBuffer sampleState false sampleEnv =
        { returned := false, exitPoint := .transactionsNotSignaled,
          state := { sampleState with mLocalSyncPoints :=
            sampleState.mLocalSyncPoints.set j { q with frameAvailable := true } },
          recomputeVisibleRegions := false,
          signalLayerUpdateCalled := false, traversalNeededSet := true } :=
  C1_unavailable_syncpoint_aborts_latch sampleState false sampleEnv (by decide)
    rfl rfl rfl rfl sampleSyncPoint (by decide) (by decide) rfl

/-- Witness for C2: offering frames 1 then 2 across two successful latches
yields the strictly increasing observation chain. -/
theorem C2_witness_two_latches :
    List.Chain' (· < ·) (observedFrameNumbers sampleStateEmptyLedger sampleTrace) :=
  C2_frame_numbers_strictly_increase sampleStateEmptyLedger sampleTrace (by decide)

/-- Witness for C3: latching frame 3 prunes the fully satisfied entry at
frame 1 and keeps the entry at frame 5. -/
theorem C3_witness_prunes_satisfied :
    (latchBuffer sampleStatePrunable false sampleEnv).state.mCurrentFrameNumber =
      sampleEnv.queueFrameNumber ∧
    (latchBuffer sampleStatePrunable false sampleEnv).state.mLocalSyncPoints =
      sampleStatePrunable.mLocalSyncPoints.filter (fun p =>
        !(p.frameAvailable && p.transactionApplied &&
          decide (p.frameNumber ≤ sampleEnv.queueFrameNumber))) :=
  C3_successful_latch_prunes_exactly_satisfied sampleStatePrunable false sampleEnv
    (by decide)

/-- Witness for C4 (the spec's Scenario A): frame queued, fence unsignaled —
the latch returns false, requests a wake, and the state is untouched. -/
theorem C4_witness_scenario_a :
    latchBuffer sampleState false { sampleEnv with fenceSignaled := false } =
      { returned := false, exitPoint := .fenceNotSignaled, state := sampleState,
        recomputeVisibleRegions := false,
        signalLayerUpdateCalled := true, traversalNeededSet := false } :=
  C4_unsignaled_fence_defers_latch sampleState false
    { sampleEnv with fenceSignaled := false } rfl rfl rfl rfl rfl

/-- Witness for C5: the single entry at frame 2 is available but its
transaction unapplied, so the latch defers with nothing changed. -/
theorem C5_witness_defers_unapplied :
    latchBuffer sampleStateUnapplied false sampleEnv =
      { returned := false, exitPoint := .transactionsNotSignaled,
        state := sampleStateUnapplied,
        recomputeVisibleRegions := false,
        signalLayerUpdateCalled := false, traversalNeededSet := true } :=
  C5_unapplied_transaction_defers_latch sampleStateUnapplied false sampleEnv
    (by decide) rfl rfl rfl rfl (by decide)
    { sampleSyncPoint with frameAvailable := true } (by decide) (by decide) rfl

/-- Witness for C6: with head frame 3, fence signaled and present time
current, the entry targeting frame 2 is marked available and its requester
(layer 7) is flagged. -/
theorem C6_witness_marks_and_flags :
    (notifyAvailableFrames sampleState sampleEnv).points[0]? =
      some (if sampleSyncPoint.frameNumber ≤ getHeadFrameNumber sampleState sampleEnv ∧
          fenceHasSignaled sampleEnv = true ∧ sampleEnv.presentTimeIsCurrent = true
        then { sampleSyncPoint with frameAvailable := true } else sampleSyncPoint) ∧
    (sampleSyncPoint.requesterId ∈
        (notifyAvailableFrames sampleState sampleEnv).flaggedRequesters ↔
      ∃ q ∈ sampleState.mLocalSyncPoints,
        q.frameNumber ≤ getHeadFrameNumber sampleState sampleEnv ∧
        fenceHasSignaled sampleEnv = true ∧ sampleEnv.presentTimeIsCurrent = true ∧
        q.requesterResolves = true ∧ q.requesterId = sampleSyncPoint.requesterId) :=
  C6_notifyAvailableFrames_marks_and_flags sampleState sampleEnv 0 sampleSyncPoint rfl

/-- Witness for C7 (the spec's Scenario B): latching the very first frame
(previous buffer null) reports a geometry change. -/
theorem C7_witness_first_frame :
    (latchBuffer sampleStateEmptyLedger false sampleEnv).recomputeVisibleRegions = true :=
  C7_geometry_change_reported sampleStateEmptyLedger false sampleEnv (by decide)
    (Or.inl rfl)

/-- Witness for the amended C8: an invalid buffer size under a 2x2 window
yields the substituted unit-scale projection. -/
theorem C8_witness_unit_scale :
    computeProjection ⟨0, 0, 2, 2⟩ ⟨0, 0, -1, -1⟩ =
      { scaleWidth := 1, scaleHeight := 1, translateX := 0, translateY := 0 } := by
  rw [C8_amended_invalid_size_uses_window_dimensions ⟨0, 0, 2, 2⟩ ⟨0, 0, -1, -1⟩
    (by decide) (by decide) (by decide)]
  norm_num

/-- Witness for C10: with a pending frame update, `hasReadyFrame` holds and
the latch proceeds past its no-op check. -/
theorem C10_witness_ready_frame :
    (hasReadyFrame sampleEnv = true ↔
      (sampleEnv.hasFrameUpdate = true ∨ sampleEnv.sidebandStreamChanged = true ∨
        sampleEnv.autoRefresh = true)) ∧
    ((latchBuffer sampleState false sampleEnv).exitPoint = LatchExit.noReadyFrame ↔
      hasReadyFrame sampleEnv = false) :=
  C10_hasReadyFrame_gates_latch sampleState false sampleEnv rfl

end BufferLayerModel
